import Mathlib

/-!
Shallow embedding of `src/main.py` (class `VIPRpmShareBot`), covering the
credential store (SQLite table `users`), the remote upload client
(`get_upload_server`, `upload_to_rpmshare`), the upload orchestrator
(`handle_video`), and the `stats` command handler.

Modelling conventions:
* The SQLite table `users (user_id PRIMARY KEY, api_key, upload_count, created_at)`
  is an association list of rows; the primary key keeps at most one row per id,
  which every operation below preserves.
* `created_at TIMESTAMP DEFAULT CURRENT_TIMESTAMP` is modelled by passing the
  current time `now : Nat` to the one statement that inserts rows
  (`save_user_api_key`, whose `INSERT OR REPLACE` omits the `created_at`
  column, so the column takes its default).
* Storage faults (the `except` arms of the db helpers) are not injected: the
  store operations model the fault-free SQL semantics.
* Network calls are modelled by attempt oracles: for each retry attempt index,
  the oracle says what that attempt of the HTTP call would do (raise /
  return a given decoded JSON body). Telegram calls (`get_file`,
  `download_to_drive`) are modelled by success flags; `reply_text` /
  `edit_text` are modelled as recorded messages and never fail.
* Python truthiness on strings (`if not user_api_key`, `if filecode`,
  `data['result']`) is modelled explicitly: `none` and `""` are falsy.
-/

set_option maxHeartbeats 1000000

namespace VIPRpmShareBot

/-- One row of the SQLite table `users` (see `init_database`):
`user_id INTEGER PRIMARY KEY, api_key TEXT NOT NULL,
upload_count INTEGER DEFAULT 0, created_at TIMESTAMP DEFAULT CURRENT_TIMESTAMP`. -/
structure UserRow where
  user_id : Nat
  api_key : String
  upload_count : Nat
  created_at : Nat
deriving Repr, DecidableEq

/-- The `users` table: a list of rows, at most one per `user_id`. -/
abbrev Db := List UserRow

/-- `SELECT ... FROM users WHERE user_id = ?` — the first (only) row with
the given id. -/
def dbLookup : Db → Nat → Option UserRow
  | [], _ => none
  | r :: rest, uid => if r.user_id = uid then some r else dbLookup rest uid

/-- `DELETE`-on-conflict part of `INSERT OR REPLACE`: drop every row whose
primary key equals `uid`. -/
def dbDeleteRow : Db → Nat → Db
  | [], _ => []
  | r :: rest, uid =>
      if r.user_id = uid then dbDeleteRow rest uid else r :: dbDeleteRow rest uid

/-- `get_user_api_key`: `SELECT api_key FROM users WHERE user_id = ?`,
returning `result[0] if result else None`. -/
def get_user_api_key (db : Db) (uid : Nat) : Option String :=
  (dbLookup db uid).map UserRow.api_key

/-- `save_user_api_key`: `INSERT OR REPLACE INTO users (user_id, api_key,
upload_count) VALUES (?, ?, COALESCE((SELECT upload_count FROM users WHERE
user_id = ?), 0))`. The `created_at` column is not in the column list, so the
replacing row takes the default `CURRENT_TIMESTAMP`, here `now`. Returns
`true` (the fault-free run reaches `return True`). -/
def save_user_api_key (db : Db) (uid : Nat) (api_key : String) (now : Nat) :
    Db × Bool :=
  let oldCount : Nat :=
    match dbLookup db uid with
    | some r => r.upload_count
    | none => 0
  (dbDeleteRow db uid ++
    [{ user_id := uid, api_key := api_key, upload_count := oldCount,
       created_at := now }], true)

/-- `increment_upload_count`: `UPDATE users SET upload_count = upload_count + 1
WHERE user_id = ?` — a no-op for ids with no row. -/
def increment_upload_count : Db → Nat → Db
  | [], _ => []
  | r :: rest, uid =>
      (if r.user_id = uid then
        { r with upload_count := r.upload_count + 1 }
      else r) :: increment_upload_count rest uid

/-- `get_upload_stats`: `SELECT upload_count FROM users WHERE user_id = ?`,
returning `result[0] if result else 0`. -/
def get_upload_stats (db : Db) (uid : Nat) : Nat :=
  match dbLookup db uid with
  | some r => r.upload_count
  | none => 0

/-- N sequential calls of `increment_upload_count` for the same user. -/
def iterate_increment (db : Db) (uid : Nat) : Nat → Db
  | 0 => db
  | n + 1 => increment_upload_count (iterate_increment db uid n) uid

/-- The local `masked_key` computation of the `stats` handler:
`"*" * (len(api_key) - 6) + api_key[-6:]`. Python `"*" * n` is empty for
`n <= 0` (truncated subtraction); `api_key[-6:]` is the suffix of at most 6
characters, i.e. drop `len - 6` from the front. -/
def masked_key (api_key : String) : String :=
  String.mk (List.replicate (api_key.length - 6) '*') ++
    String.mk (api_key.data.drop (api_key.length - 6))

/-- Observable outcome of the `stats` command handler. -/
inductive StatsReply where
  | authRequired
  | statsMessage (maskedKey : String) (totalUploads : Nat)
deriving Repr, DecidableEq

/-- The `stats` handler: `if not api_key` (falsy: `None` or `""`) prompt to
register, else reply with the masked key and the current upload count. -/
def stats (db : Db) (uid : Nat) : StatsReply :=
  match get_user_api_key db uid with
  | none => .authRequired
  | some api_key =>
      if api_key = "" then .authRequired
      else .statsMessage (masked_key api_key) (get_upload_stats db uid)

/-- What one attempt of `GET /api/upload/server` does: `err` covers a raised
transport error, a timeout, or a non-2xx status (via `raise_for_status`) and
a body that fails to decode; `resp result` is a decoded 2xx JSON body whose
`result` field is `result` (`none` when the key is absent). -/
inductive ServerAttempt where
  | err
  | resp (result : Option String)
deriving Repr, DecidableEq

/-- The value one loop iteration of `get_upload_server` would `return`:
`some s` only when the attempt yields a body with `'result' in data and
data['result']` truthy (a present, non-empty string). Anything else returns
nothing and the loop goes to the next attempt. -/
def serverAttemptResult : ServerAttempt → Option String
  | .err => none
  | .resp none => none
  | .resp (some s) => if s = "" then none else some s

/-- `get_upload_server`: `max_retries = 3`; the `for attempt in range(3)`
loop unrolled (the backoff sleeps between attempts do not affect the value).
Returns the first attempt's usable `result`, else `None`. -/
def get_upload_server (att : Nat → ServerAttempt) : Option String :=
  match serverAttemptResult (att 0) with
  | some s => some s
  | none =>
    match serverAttemptResult (att 1) with
    | some s => some s
    | none => serverAttemptResult (att 2)

/-- A decoded upload-submission JSON body, abstracted to the two fields the
program reads plus what the dict-falsiness test needs: `result` is the
optional `'result'` list, each element abstracted to its optional
`'filecode'` field; `msg` is the optional `'msg'` field; `otherFields` says
whether the dict has any further keys, which decides the truthiness of a body
with neither `'result'` nor `'msg'`. -/
structure UploadResponse where
  result : Option (List (Option String))
  msg : Option String
  otherFields : Bool
deriving Repr, DecidableEq

/-- Python dict falsiness of a decoded body, for the orchestrator's
`if not upload_response:` check: only the empty dict `{}` — no `'result'`,
no `'msg'`, no other keys — is falsy. -/
def UploadResponse.isEmptyDict : UploadResponse → Bool
  | { result := none, msg := none, otherFields := false } => true
  | _ => false

/-- What one attempt of the multipart POST does: raise, or return a decoded
JSON body. -/
inductive UploadAttempt where
  | err
  | resp (j : UploadResponse)
deriving Repr, DecidableEq

/-- The value one loop iteration of `upload_to_rpmshare` would `return`. -/
def uploadAttemptResult : UploadAttempt → Option UploadResponse
  | .err => none
  | .resp j => some j

/-- `upload_to_rpmshare`: `max_retries = 3`; the retry loop unrolled (the
fixed 3-second sleeps do not affect the value). Returns the first successful
response body, else `None`. -/
def upload_to_rpmshare (att : Nat → UploadAttempt) : Option UploadResponse :=
  match uploadAttemptResult (att 0) with
  | some j => some j
  | none =>
    match uploadAttemptResult (att 1) with
    | some j => some j
    | none => uploadAttemptResult (att 2)

/-- `filecode = upload_response.get('result', [{}])[0].get('filecode')`:
a missing `'result'` key defaults to `[{}]` whose first element has no
`'filecode'`; a present but empty `'result'` list makes `[0]` raise
`IndexError` (the `error` case); otherwise the first element's `'filecode'`. -/
def getFilecode (r : UploadResponse) : Except Unit (Option String) :=
  match r.result with
  | none => .ok none
  | some [] => .error ()
  | some (fc :: _) => .ok fc

/-- Whether a response carries a usable file handle: a present, non-empty
`'result'` list whose first element has a present, non-empty (truthy)
`'filecode'`. -/
def hasFilecode (r : UploadResponse) : Bool :=
  match r.result with
  | some (some s :: _) => !(s == "")
  | _ => false

/-- The Python size check `file_size_mb = video.file_size / (1024*1024) if
video.file_size else 0`, then `file_size_mb > 500`: a missing (or zero, both
falsy) `file_size` counts as 0 bytes. The float comparison
`b / 2^20 > 500` is exact for the sizes at hand and equals `b > 500 * 2^20`
on integers, which is how it is modelled. -/
def sizeExceedsLimit (fileSize : Option Nat) : Bool :=
  decide (500 * 1024 * 1024 <
    match fileSize with
    | none => 0
    | some b => b)

/-- The fixed user-visible messages of `handle_video` (and the access-denied
reply), abstracted from their literal Markdown text. -/
inductive Msg where
  | accessDenied
  | initiated
  | sizeLimitExceeded
  | downloading
  | uploading
  | serverAccessFailed
  | uploadFailed
  | uploadCompleted (filecode : String) (totalUploads : Nat)
  | uploadProcessingError (serverMsg : String)
  | systemError
deriving Repr, DecidableEq

/-- Observable outcome of one `handle_video` run: the store afterwards, the
`reply_text` messages, the sequence of `edit_text` calls on the status
message, whether the run created its temporary file, how many times the file
was unlinked, and which external calls were made. -/
structure RunResult where
  db : Db
  replies : List Msg
  edits : List Msg
  tempCreated : Bool
  tempDeleted : Nat
  calledGetFile : Bool
  calledDownload : Bool
  calledGetServer : Bool
  calledUpload : Bool
deriving Repr, DecidableEq

/-- The `handle_video` orchestrator. Inputs beyond the store and ids:
`fileSize` is `video.file_size`; `getFileOk` / `downloadOk` say whether
`context.bot.get_file` / `file.download_to_drive` raise; `serverAtt` /
`uploadAtt` are the per-attempt oracles of the two HTTP calls. The `try /
except / finally` structure is compiled into the explicit branches: every
raised exception inside `try` reaches the generic `except` edit, and the
`finally` unlink runs (once) whenever `temp_file_path` was set and the file
still exists. The `if not upload_response:` test is Python dict falsiness:
it catches both `None` (all attempts failed) and a present empty body `{}`,
and both take the "upload failed" edit. -/
def handle_video (db : Db) (uid : Nat) (fileSize : Option Nat)
    (getFileOk : Bool) (downloadOk : Bool)
    (serverAtt : Nat → ServerAttempt) (uploadAtt : Nat → UploadAttempt) :
    RunResult :=
  match get_user_api_key db uid with
  | none =>
      { db := db, replies := [.accessDenied], edits := [],
        tempCreated := false, tempDeleted := 0, calledGetFile := false,
        calledDownload := false, calledGetServer := false,
        calledUpload := false }
  | some user_api_key =>
    if user_api_key = "" then
      { db := db, replies := [.accessDenied], edits := [],
        tempCreated := false, tempDeleted := 0, calledGetFile := false,
        calledDownload := false, calledGetServer := false,
        calledUpload := false }
    else if sizeExceedsLimit fileSize then
      { db := db, replies := [.initiated], edits := [.sizeLimitExceeded],
        tempCreated := false, tempDeleted := 0, calledGetFile := false,
        calledDownload := false, calledGetServer := false,
        calledUpload := false }
    else if getFileOk then
      if downloadOk then
        match get_upload_server serverAtt with
        | none =>
            { db := db, replies := [.initiated],
              edits := [.downloading, .uploading, .serverAccessFailed],
              tempCreated := true, tempDeleted := 1, calledGetFile := true,
              calledDownload := true, calledGetServer := true,
              calledUpload := false }
        | some _upload_server =>
          match upload_to_rpmshare uploadAtt with
          | none =>
              { db := db, replies := [.initiated],
                edits := [.downloading, .uploading, .uploadFailed],
                tempCreated := true, tempDeleted := 1, calledGetFile := true,
                calledDownload := true, calledGetServer := true,
                calledUpload := true }
          | some upload_response =>
            if upload_response.isEmptyDict then
              { db := db, replies := [.initiated],
                edits := [.downloading, .uploading, .uploadFailed],
                tempCreated := true, tempDeleted := 1, calledGetFile := true,
                calledDownload := true, calledGetServer := true,
                calledUpload := true }
            else
            match getFilecode upload_response with
            | .error _ =>
                { db := db, replies := [.initiated],
                  edits := [.downloading, .uploading, .systemError],
                  tempCreated := true, tempDeleted := 1,
                  calledGetFile := true, calledDownload := true,
                  calledGetServer := true, calledUpload := true }
            | .ok none =>
                { db := db, replies := [.initiated],
                  edits := [.downloading, .uploading,
                    .uploadProcessingError
                      (upload_response.msg.getD "Unknown error")],
                  tempCreated := true, tempDeleted := 1,
                  calledGetFile := true, calledDownload := true,
                  calledGetServer := true, calledUpload := true }
            | .ok (some filecode) =>
              if filecode = "" then
                { db := db, replies := [.initiated],
                  edits := [.downloading, .uploading,
                    .uploadProcessingError
                      (upload_response.msg.getD "Unknown error")],
                  tempCreated := true, tempDeleted := 1,
                  calledGetFile := true, calledDownload := true,
                  calledGetServer := true, calledUpload := true }
              else
                let db2 := increment_upload_count db uid
                { db := db2, replies := [.initiated],
                  edits := [.downloading, .uploading,
                    .uploadCompleted filecode (get_upload_stats db2 uid)],
                  tempCreated := true, tempDeleted := 1,
                  calledGetFile := true, calledDownload := true,
                  calledGetServer := true, calledUpload := true }
      else
        { db := db, replies := [.initiated],
          edits := [.downloading, .systemError], tempCreated := true,
          tempDeleted := 1, calledGetFile := true, calledDownload := true,
          calledGetServer := false, calledUpload := false }
    else
      { db := db, replies := [.initiated], edits := [.systemError],
        tempCreated := true, tempDeleted := 1, calledGetFile := true,
        calledDownload := false, calledGetServer := false,
        calledUpload := false }

/-- Concrete store used in counterexamples and witnesses: user 1 registered
with key "APIKEY" and 2 uploads at time 0. -/
def wdb : Db :=
  [{ user_id := 1, api_key := "APIKEY", upload_count := 2, created_at := 0 }]

/-- Server-acquisition oracle where every attempt raises. -/
def srvAllErr : Nat → ServerAttempt := fun _ => ServerAttempt.err

/-- Server-acquisition oracle where every attempt yields a usable endpoint. -/
def srvOk : Nat → ServerAttempt :=
  fun _ => ServerAttempt.resp (some "https-upload-endpoint")

/-- Upload oracle where every attempt raises. -/
def upAllErr : Nat → UploadAttempt := fun _ => UploadAttempt.err

/-- The decoded body `{"msg": "oops"}` (no `result` key). -/
def oopsResp : UploadResponse :=
  { result := none, msg := some "oops", otherFields := false }

/-- Upload oracle answering `{"msg": "oops"}` (no `result` key). -/
def upNoHandle : Nat → UploadAttempt :=
  fun _ => UploadAttempt.resp oopsResp

/-- Upload oracle answering `{"result": [], "msg": "provider message"}` —
a present but empty `result` list. -/
def upEmptyResult : Nat → UploadAttempt :=
  fun _ => UploadAttempt.resp
    { result := some [], msg := some "provider message",
      otherFields := false }

/-- Upload oracle answering the empty JSON body `{}` — present but falsy. -/
def upEmptyDict : Nat → UploadAttempt :=
  fun _ => UploadAttempt.resp
    { result := none, msg := none, otherFields := false }

/-- Upload oracle answering `{"result": [{"filecode": "CODE123"}]}`. -/
def upWithHandle : Nat → UploadAttempt :=
  fun _ => UploadAttempt.resp
    { result := some [some "CODE123"], msg := none, otherFields := false }

/-- Concrete store used to exhibit the `created_at` reset: one user
registered at time 10 with 3 uploads. -/
def c9db : Db :=
  [{ user_id := 1, api_key := "oldkey", upload_count := 3, created_at := 10 }]

/-- The orchestrator run of the C4 counterexample: authorized user, small
file, working telegram calls, endpoint acquired, and the provider answering
`{"result": [], "msg": "provider message"}`. -/
def c4run : RunResult :=
  handle_video wdb 1 (some 1000) true true srvOk upEmptyResult

/-- The orchestrator run of the second C4 counterexample: same setting, but
the provider answers the empty body `{}` — present, without `result`, yet
caught by the dict-falsiness check. -/
def c4runEmptyDict : RunResult :=
  handle_video wdb 1 (some 1000) true true srvOk upEmptyDict

theorem dbLookup_user_id {db : Db} {uid : Nat} {r : UserRow}
    (h : dbLookup db uid = some r) : r.user_id = uid := by
  induction db with
  | nil => simp [dbLookup] at h
  | cons r0 rest ih =>
    by_cases h0 : r0.user_id = uid
    · simp [dbLookup, h0] at h
      subst h
      exact h0
    · simp [dbLookup, h0] at h
      exact ih h

theorem dbLookup_dbDeleteRow_self (db : Db) (uid : Nat) :
    dbLookup (dbDeleteRow db uid) uid = none := by
  induction db with
  | nil => rfl
  | cons r rest ih =>
    by_cases h0 : r.user_id = uid
    · simp [dbDeleteRow, h0, ih]
    · simp [dbDeleteRow, dbLookup, h0, ih]

theorem dbLookup_dbDeleteRow_other (db : Db) (uid uid2 : Nat)
    (hne : uid2 ≠ uid) :
    dbLookup (dbDeleteRow db uid2) uid = dbLookup db uid := by
  induction db with
  | nil => rfl
  | cons r rest ih =>
    by_cases h0 : r.user_id = uid2
    · simp [dbDeleteRow, dbLookup, h0, hne, ih]
    · simp [dbDeleteRow, dbLookup, h0, ih]

theorem dbLookup_append (l1 l2 : Db) (uid : Nat) :
    dbLookup (l1 ++ l2) uid =
      match dbLookup l1 uid with
      | some r => some r
      | none => dbLookup l2 uid := by
  induction l1 with
  | nil => rfl
  | cons r rest ih =>
    by_cases h0 : r.user_id = uid
    · simp [dbLookup, h0]
    · simp [dbLookup, h0, ih]

theorem dbLookup_save_self (db : Db) (uid : Nat) (k : String) (now : Nat) :
    dbLookup (save_user_api_key db uid k now).1 uid =
      some { user_id := uid, api_key := k,
             upload_count := get_upload_stats db uid, created_at := now } := by
  unfold save_user_api_key
  rw [dbLookup_append, dbLookup_dbDeleteRow_self]
  simp [dbLookup, get_upload_stats]

theorem dbLookup_increment (db : Db) (u uid : Nat) :
    dbLookup (increment_upload_count db u) uid =
      (dbLookup db uid).map fun r =>
        if r.user_id = u then { r with upload_count := r.upload_count + 1 }
        else r := by
  induction db with
  | nil => rfl
  | cons r rest ih =>
    have hhead :
        (if r.user_id = u then { r with upload_count := r.upload_count + 1 }
          else r).user_id = r.user_id := by
      split <;> rfl
    by_cases h0 : r.user_id = uid
    · simp only [increment_upload_count, dbLookup, hhead, if_pos h0,
        Option.map_some']
    · simp only [increment_upload_count, dbLookup, hhead, if_neg h0, ih]

theorem get_upload_stats_increment (db : Db) (uid : Nat)
    (h : (dbLookup db uid).isSome = true) :
    get_upload_stats (increment_upload_count db uid) uid =
      get_upload_stats db uid + 1 := by
  rcases hl : dbLookup db uid with _ | r
  · rw [hl] at h
    simp at h
  · have hu := dbLookup_user_id hl
    simp [get_upload_stats, dbLookup_increment, hl, hu]

theorem dbLookup_increment_isSome (db : Db) (uid : Nat)
    (h : (dbLookup db uid).isSome = true) :
    (dbLookup (increment_upload_count db uid) uid).isSome = true := by
  rcases hl : dbLookup db uid with _ | r
  · rw [hl] at h
    simp at h
  · simp [dbLookup_increment, hl]

theorem take_replicate_append (n : Nat) (c : Char) (l : List Char) :
    List.take n (List.replicate n c ++ l) = List.replicate n c := by
  induction n with
  | zero => rfl
  | succ m ih => simp [ih]

theorem drop_replicate_append (n : Nat) (c : Char) (l : List Char) :
    List.drop n (List.replicate n c ++ l) = l := by
  induction n with
  | zero => rfl
  | succ m ih => simp [ih]

theorem masked_key_data (api_key : String) :
    (masked_key api_key).data =
      List.replicate (api_key.length - 6) '*' ++
        api_key.data.drop (api_key.length - 6) := rfl

/-- C1: every `handle_video` run deletes its temporary file exactly once when
it created one and zero times otherwise; and a run that ends before the file
is created (unauthorized user — missing or falsy empty key — or an oversize
file) never creates it. -/
theorem c1_temp_file_cleanup (db : Db) (uid : Nat) (fileSize : Option Nat)
    (getFileOk downloadOk : Bool) (serverAtt : Nat → ServerAttempt)
    (uploadAtt : Nat → UploadAttempt) (db2 : Db) (uid2 : Nat)
    (fileSize2 : Option Nat) (g2 d2 : Bool) (s2 : Nat → ServerAttempt)
    (u2 : Nat → UploadAttempt)
    (hpre : get_user_api_key db2 uid2 = none ∨
      get_user_api_key db2 uid2 = some "" ∨
      sizeExceedsLimit fileSize2 = true) :
    ((handle_video db uid fileSize getFileOk downloadOk serverAtt
        uploadAtt).tempDeleted =
      if (handle_video db uid fileSize getFileOk downloadOk serverAtt
          uploadAtt).tempCreated then 1 else 0) ∧
    (handle_video db2 uid2 fileSize2 g2 d2 s2 u2).tempCreated = false := by
  constructor
  · unfold handle_video
    repeat' split
    all_goals simp_all
  · rcases hpre with h | h | h
    · simp [handle_video, h]
    · simp [handle_video, h]
    · cases hk : get_user_api_key db2 uid2 with
      | none => simp [handle_video, hk]
      | some key =>
        by_cases hkey : key = ""
        · simp [handle_video, hk, hkey]
        · simp [handle_video, hk, hkey, h]

/-- Witness for C1: a full successful run (temp file created, deleted once)
and an unauthorized run (no temp file). -/
theorem c1_temp_file_cleanup_witness :
    (get_user_api_key ([] : Db) 2 = none ∨
      get_user_api_key ([] : Db) 2 = some "" ∨
      sizeExceedsLimit (some 0) = true) ∧
    (((handle_video wdb 1 (some 1000) true true srvOk
        upWithHandle).tempDeleted =
      if (handle_video wdb 1 (some 1000) true true srvOk
          upWithHandle).tempCreated then 1 else 0) ∧
    (handle_video [] 2 (some 0) true true srvOk upWithHandle).tempCreated =
      false) :=
  ⟨Or.inl rfl,
    c1_temp_file_cleanup wdb 1 (some 1000) true true srvOk upWithHandle
      [] 2 (some 0) true true srvOk upWithHandle (Or.inl rfl)⟩

/-- C2: for an authorized user, a reported size strictly above 500 MB makes
`handle_video` edit the status message to the size-limit text only, create no
temporary file, and call none of `get_file`, `download_to_drive`,
`get_upload_server`, `upload_to_rpmshare`; the store is untouched. -/
theorem c2_oversize_no_network (db : Db) (uid : Nat) (b : Nat)
    (getFileOk downloadOk : Bool) (serverAtt : Nat → ServerAttempt)
    (uploadAtt : Nat → UploadAttempt) (key : String)
    (hk : get_user_api_key db uid = some key) (hkey : key ≠ "")
    (hb : 500 * 1024 * 1024 < b) :
    (handle_video db uid (some b) getFileOk downloadOk serverAtt
        uploadAtt).edits = [Msg.sizeLimitExceeded] ∧
    (handle_video db uid (some b) getFileOk downloadOk serverAtt
        uploadAtt).calledGetFile = false ∧
    (handle_video db uid (some b) getFileOk downloadOk serverAtt
        uploadAtt).calledDownload = false ∧
    (handle_video db uid (some b) getFileOk downloadOk serverAtt
        uploadAtt).calledGetServer = false ∧
    (handle_video db uid (some b) getFileOk downloadOk serverAtt
        uploadAtt).calledUpload = false ∧
    (handle_video db uid (some b) getFileOk downloadOk serverAtt
        uploadAtt).tempCreated = false ∧
    (handle_video db uid (some b) getFileOk downloadOk serverAtt
        uploadAtt).db = db := by
  have hsize : sizeExceedsLimit (some b) = true := by
    simp [sizeExceedsLimit, hb]
  simp [handle_video, hk, hkey, hsize]

/-- Witness for C2 at size 500 MB + 1 byte. -/
theorem c2_oversize_no_network_witness :
    get_user_api_key wdb 1 = some "APIKEY" ∧ "APIKEY" ≠ "" ∧
    500 * 1024 * 1024 < 524288001 ∧
    ((handle_video wdb 1 (some 524288001) true true srvOk
        upWithHandle).edits = [Msg.sizeLimitExceeded] ∧
    (handle_video wdb 1 (some 524288001) true true srvOk
        upWithHandle).calledGetFile = false ∧
    (handle_video wdb 1 (some 524288001) true true srvOk
        upWithHandle).calledDownload = false ∧
    (handle_video wdb 1 (some 524288001) true true srvOk
        upWithHandle).calledGetServer = false ∧
    (handle_video wdb 1 (some 524288001) true true srvOk
        upWithHandle).calledUpload = false ∧
    (handle_video wdb 1 (some 524288001) true true srvOk
        upWithHandle).tempCreated = false ∧
    (handle_video wdb 1 (some 524288001) true true srvOk
        upWithHandle).db = wdb) :=
  ⟨rfl, by decide, by decide,
    c2_oversize_no_network wdb 1 524288001 true true srvOk upWithHandle
      "APIKEY" rfl (by decide) (by decide)⟩

/-- C3: when each of the 3 attempts of `get_upload_server` fails (raises,
gets a non-2xx status, or decodes a body without a usable `result`), the
client returns `None` rather than raising, and the orchestrator run that
reaches endpoint acquisition ends with exactly one terminal
"server access failed" edit (the last and only failure edit) and never calls
`upload_to_rpmshare`. -/
theorem c3_endpoint_failure_terminal (db : Db) (uid : Nat)
    (fileSize : Option Nat) (key : String) (serverAtt : Nat → ServerAttempt)
    (uploadAtt : Nat → UploadAttempt)
    (hk : get_user_api_key db uid = some key) (hkey : key ≠ "")
    (hsize : sizeExceedsLimit fileSize = false)
    (h0 : serverAttemptResult (serverAtt 0) = none)
    (h1 : serverAttemptResult (serverAtt 1) = none)
    (h2 : serverAttemptResult (serverAtt 2) = none) :
    get_upload_server serverAtt = none ∧
    (handle_video db uid fileSize true true serverAtt uploadAtt).edits =
      [Msg.downloading, Msg.uploading, Msg.serverAccessFailed] ∧
    (handle_video db uid fileSize true true serverAtt
        uploadAtt).calledUpload = false := by
  have hs : get_upload_server serverAtt = none := by
    simp [get_upload_server, h0, h1, h2]
  refine ⟨hs, ?_, ?_⟩ <;> simp [handle_video, hk, hkey, hsize, hs]

/-- Witness for C3: every attempt of the oracle raises. -/
theorem c3_endpoint_failure_terminal_witness :
    get_user_api_key wdb 1 = some "APIKEY" ∧ "APIKEY" ≠ "" ∧
    sizeExceedsLimit (some 1000) = false ∧
    serverAttemptResult (srvAllErr 0) = none ∧
    serverAttemptResult (srvAllErr 1) = none ∧
    serverAttemptResult (srvAllErr 2) = none ∧
    (get_upload_server srvAllErr = none ∧
    (handle_video wdb 1 (some 1000) true true srvAllErr upWithHandle).edits =
      [Msg.downloading, Msg.uploading, Msg.serverAccessFailed] ∧
    (handle_video wdb 1 (some 1000) true true srvAllErr
        upWithHandle).calledUpload = false) :=
  ⟨rfl, by decide, by decide, rfl, rfl, rfl,
    c3_endpoint_failure_terminal wdb 1 (some 1000) "APIKEY" srvAllErr
      upWithHandle rfl (by decide) (by decide) rfl rfl rfl⟩

/-- C4 counterexample, two runs. On the response shape `{"result": [],
"msg": "provider message"}` the expression
`upload_response.get('result', [{}])[0]` raises `IndexError`, the generic
`except` arm runs, and the status edit is the generic system-error text. On
the present empty body `{}` the `if not upload_response:` dict-falsiness
check fires and the status edit is the "upload failed" text. In both runs
the provider's message text (and the "Unknown error" fallback) is never
surfaced, contradicting the claim. (The counter is indeed not incremented
in either.) -/
theorem c4_missing_handle_counterexample :
    c4run.edits = [Msg.downloading, Msg.uploading, Msg.systemError] ∧
    Msg.uploadProcessingError "provider message" ∉ c4run.edits ∧
    Msg.uploadProcessingError "Unknown error" ∉ c4run.edits ∧
    c4run.db = wdb ∧
    c4runEmptyDict.edits =
      [Msg.downloading, Msg.uploading, Msg.uploadFailed] ∧
    Msg.uploadProcessingError "Unknown error" ∉ c4runEmptyDict.edits ∧
    c4runEmptyDict.db = wdb := by
  decide

/-- C4 amended: a submission response without a usable file handle never
increments the counter. The final status edit depends on the shape: the
present but falsy empty body `{}` is caught by the `if not upload_response:`
dict-falsiness check and takes the "upload failed" edit; a present `result`
key holding an empty list makes the handle lookup raise `IndexError` and
takes the generic system-error edit; every other no-handle response (absent
`result`, or a first element without a truthy filecode) surfaces the
provider's `msg` (or "Unknown error" when absent). -/
theorem c4_no_handle_no_increment (db : Db) (uid : Nat)
    (fileSize : Option Nat) (key srv : String)
    (serverAtt : Nat → ServerAttempt) (uploadAtt : Nat → UploadAttempt)
    (resp : UploadResponse)
    (hk : get_user_api_key db uid = some key) (hkey : key ≠ "")
    (hsize : sizeExceedsLimit fileSize = false)
    (hsrv : get_upload_server serverAtt = some srv)
    (hup : upload_to_rpmshare uploadAtt = some resp)
    (hnof : hasFilecode resp = false) :
    (handle_video db uid fileSize true true serverAtt uploadAtt).db = db ∧
    get_upload_stats
        (handle_video db uid fileSize true true serverAtt uploadAtt).db uid =
      get_upload_stats db uid ∧
    (handle_video db uid fileSize true true serverAtt uploadAtt).edits =
      [Msg.downloading, Msg.uploading,
        if resp.isEmptyDict then Msg.uploadFailed
        else
          match resp.result with
          | some [] => Msg.systemError
          | _ => Msg.uploadProcessingError (resp.msg.getD "Unknown error")] := by
  rcases resp with ⟨res, m, other⟩
  rcases res with _ | l
  · rcases m with _ | ms
    · cases other <;>
        (refine ⟨?_, ?_, ?_⟩ <;>
          simp [handle_video, hk, hkey, hsize, hsrv, hup, getFilecode,
            UploadResponse.isEmptyDict])
    · cases other <;>
        (refine ⟨?_, ?_, ?_⟩ <;>
          simp [handle_video, hk, hkey, hsize, hsrv, hup, getFilecode,
            UploadResponse.isEmptyDict])
  · rcases l with _ | ⟨fc, rest⟩
    · refine ⟨?_, ?_, ?_⟩ <;>
        simp [handle_video, hk, hkey, hsize, hsrv, hup, getFilecode,
          UploadResponse.isEmptyDict]
    · rcases fc with _ | s
      · refine ⟨?_, ?_, ?_⟩ <;>
          simp [handle_video, hk, hkey, hsize, hsrv, hup, getFilecode,
            UploadResponse.isEmptyDict]
      · have hs : s = "" := by
          simpa [hasFilecode] using hnof
        subst hs
        refine ⟨?_, ?_, ?_⟩ <;>
          simp [handle_video, hk, hkey, hsize, hsrv, hup, getFilecode,
            UploadResponse.isEmptyDict]

/-- Witness for the amended C4: the provider answers `{"msg": "oops"}`. -/
theorem c4_no_handle_no_increment_witness :
    get_user_api_key wdb 1 = some "APIKEY" ∧ "APIKEY" ≠ "" ∧
    sizeExceedsLimit (some 1000) = false ∧
    get_upload_server srvOk = some "https-upload-endpoint" ∧
    upload_to_rpmshare upNoHandle = some oopsResp ∧
    hasFilecode oopsResp = false ∧
    ((handle_video wdb 1 (some 1000) true true srvOk upNoHandle).db = wdb ∧
    get_upload_stats
        (handle_video wdb 1 (some 1000) true true srvOk upNoHandle).db 1 =
      get_upload_stats wdb 1 ∧
    (handle_video wdb 1 (some 1000) true true srvOk upNoHandle).edits =
      [Msg.downloading, Msg.uploading,
        if oopsResp.isEmptyDict then Msg.uploadFailed
        else
          match oopsResp.result with
          | some [] => Msg.systemError
          | _ => Msg.uploadProcessingError
              (oopsResp.msg.getD "Unknown error")]) :=
  ⟨rfl, by decide, by decide, rfl, rfl, rfl,
    c4_no_handle_no_increment wdb 1 (some 1000) "APIKEY"
      "https-upload-endpoint" srvOk upNoHandle oopsResp
      rfl (by decide) (by decide) rfl rfl rfl⟩

/-- C5: a submission response whose `result` list starts with a non-empty
`filecode` makes the run increment the owner's stored counter by exactly 1
and report that filecode together with the new total in the final edit. -/
theorem c5_handle_increments_and_reports (db : Db) (uid : Nat)
    (fileSize : Option Nat) (key srv : String)
    (serverAtt : Nat → ServerAttempt) (uploadAtt : Nat → UploadAttempt)
    (resp : UploadResponse) (fc : String) (rest : List (Option String))
    (hk : get_user_api_key db uid = some key) (hkey : key ≠ "")
    (hsize : sizeExceedsLimit fileSize = false)
    (hsrv : get_upload_server serverAtt = some srv)
    (hup : upload_to_rpmshare uploadAtt = some resp)
    (hres : resp.result = some (some fc :: rest)) (hfc : fc ≠ "") :
    get_upload_stats
        (handle_video db uid fileSize true true serverAtt uploadAtt).db uid =
      get_upload_stats db uid + 1 ∧
    (handle_video db uid fileSize true true serverAtt uploadAtt).edits =
      [Msg.downloading, Msg.uploading,
        Msg.uploadCompleted fc (get_upload_stats db uid + 1)] := by
  have hreg : (dbLookup db uid).isSome = true := by
    rcases hl : dbLookup db uid with _ | r
    · rw [get_user_api_key, hl] at hk
      simp at hk
    · rfl
  have hstat := get_upload_stats_increment db uid hreg
  obtain ⟨res, m, other⟩ := resp
  have hres2 : res = some (some fc :: rest) := hres
  subst hres2
  constructor <;>
    simp [handle_video, hk, hkey, hsize, hsrv, hup, getFilecode,
      UploadResponse.isEmptyDict, hfc, hstat]

/-- Witness for C5: the provider answers
`{"result": [{"filecode": "CODE123"}]}` and user 1's count goes from 2 to 3. -/
theorem c5_handle_increments_and_reports_witness :
    get_user_api_key wdb 1 = some "APIKEY" ∧ "APIKEY" ≠ "" ∧
    sizeExceedsLimit (some 1000) = false ∧
    get_upload_server srvOk = some "https-upload-endpoint" ∧
    upload_to_rpmshare upWithHandle =
      some { result := some [some "CODE123"], msg := none,
             otherFields := false } ∧
    ({ result := some [some "CODE123"], msg := none,
        otherFields := false } :
        UploadResponse).result = some (some "CODE123" :: []) ∧
    "CODE123" ≠ "" ∧
    (get_upload_stats
        (handle_video wdb 1 (some 1000) true true srvOk upWithHandle).db 1 =
      get_upload_stats wdb 1 + 1 ∧
    (handle_video wdb 1 (some 1000) true true srvOk upWithHandle).edits =
      [Msg.downloading, Msg.uploading,
        Msg.uploadCompleted "CODE123" (get_upload_stats wdb 1 + 1)]) :=
  ⟨rfl, by decide, by decide, rfl, rfl, rfl, by decide,
    c5_handle_increments_and_reports wdb 1 (some 1000) "APIKEY"
      "https-upload-endpoint" srvOk upWithHandle
      { result := some [some "CODE123"], msg := none, otherFields := false }
      "CODE123" [] rfl (by decide) (by decide) rfl rfl rfl (by decide)⟩

/-- C6: after `save_user_api_key db uid k now` the write reports success,
`get_user_api_key` returns `k`, and the stored `upload_count` is whatever it
was before the upsert (`COALESCE` with the sub-select), in particular
unchanged for an already-registered user and 0 for a fresh one. -/
theorem c6_save_then_get_preserves_count (db : Db) (uid : Nat) (k : String)
    (now : Nat) :
    (save_user_api_key db uid k now).2 = true ∧
    get_user_api_key (save_user_api_key db uid k now).1 uid = some k ∧
    get_upload_stats (save_user_api_key db uid k now).1 uid =
      get_upload_stats db uid := by
  refine ⟨rfl, ?_, ?_⟩
  · rw [get_user_api_key, dbLookup_save_self]
    rfl
  · rw [get_upload_stats, dbLookup_save_self]

/-- C7: for a registered user, N sequential `increment_upload_count` calls
raise `get_upload_stats` by exactly N; and `get_upload_stats` is 0 for an id
with no row. -/
theorem c7_increment_n_times (db : Db) (uid : Nat) (N : Nat) (d : Db) (u : Nat)
    (h : (dbLookup db uid).isSome = true) (hu : dbLookup d u = none) :
    get_upload_stats (iterate_increment db uid N) uid =
      get_upload_stats db uid + N ∧
    get_upload_stats d u = 0 := by
  constructor
  · induction N with
    | zero => rfl
    | succ n ihn =>
      have hsome : (dbLookup (iterate_increment db uid n) uid).isSome = true := by
        clear ihn
        induction n with
        | zero => exact h
        | succ m ihm => exact dbLookup_increment_isSome _ _ ihm
      rw [iterate_increment, get_upload_stats_increment _ _ hsome, ihn]
      omega
  · simp [get_upload_stats, hu]

/-- Witness for C7 at a concrete store: user 1 registered with count 5,
3 increments yield 8; user 2 unknown in the empty store. -/
theorem c7_increment_n_times_witness :
    (dbLookup [{ user_id := 1, api_key := "k", upload_count := 5,
                 created_at := 0 }] 1).isSome = true ∧
    dbLookup ([] : Db) 2 = none ∧
    (get_upload_stats
        (iterate_increment
          [{ user_id := 1, api_key := "k", upload_count := 5,
             created_at := 0 }] 1 3) 1 =
      get_upload_stats
        [{ user_id := 1, api_key := "k", upload_count := 5,
           created_at := 0 }] 1 + 3 ∧
      get_upload_stats ([] : Db) 2 = 0) :=
  ⟨by decide, rfl,
    c7_increment_n_times
      [{ user_id := 1, api_key := "k", upload_count := 5, created_at := 0 }]
      1 3 [] 2 (by decide) rfl⟩

/-- C8: for a registered user with a stored key, the stats reply carries the
masked key and the count; the masked key has the same length as the key, its
first `len - 6` characters are all the mask character, and its last 6
characters are literally the key's last 6 characters; in particular the
12-character key "ABCDEF123456" masks to "******123456". -/
theorem c8_masked_key_stats (db : Db) (uid : Nat) (key : String)
    (hk : get_user_api_key db uid = some key) (hkey : key ≠ "") :
    stats db uid =
      StatsReply.statsMessage (masked_key key) (get_upload_stats db uid) ∧
    (masked_key key).length = key.length ∧
    (masked_key key).data.take (key.length - 6) =
      List.replicate (key.length - 6) '*' ∧
    (masked_key key).data.drop (key.length - 6) =
      key.data.drop (key.length - 6) ∧
    masked_key "ABCDEF123456" = "******123456" := by
  have hlenstar : (List.replicate (key.length - 6) '*').length =
      key.length - 6 := List.length_replicate _ _
  refine ⟨?_, ?_, ?_, ?_, by decide⟩
  · rw [stats, hk]
    simp [hkey]
  · show (masked_key key).data.length = key.data.length
    rw [masked_key_data]
    simp only [List.length_append, hlenstar, List.length_drop]
    have : key.length - 6 ≤ key.data.length := Nat.sub_le _ _
    show key.length - 6 + (key.data.length - (key.length - 6)) = key.data.length
    omega
  · rw [masked_key_data, take_replicate_append]
  · rw [masked_key_data, drop_replicate_append]

/-- Witness for C8 at a concrete store holding the 12-character key of the
spec's example. -/
theorem c8_masked_key_stats_witness :
    get_user_api_key
        [{ user_id := 7, api_key := "ABCDEF123456", upload_count := 4,
           created_at := 0 }] 7 = some "ABCDEF123456" ∧
    "ABCDEF123456" ≠ "" ∧
    (stats [{ user_id := 7, api_key := "ABCDEF123456", upload_count := 4,
              created_at := 0 }] 7 =
      StatsReply.statsMessage (masked_key "ABCDEF123456")
        (get_upload_stats
          [{ user_id := 7, api_key := "ABCDEF123456", upload_count := 4,
             created_at := 0 }] 7) ∧
      (masked_key "ABCDEF123456").length = ("ABCDEF123456" : String).length ∧
      (masked_key "ABCDEF123456").data.take
          (("ABCDEF123456" : String).length - 6) =
        List.replicate (("ABCDEF123456" : String).length - 6) '*' ∧
      (masked_key "ABCDEF123456").data.drop
          (("ABCDEF123456" : String).length - 6) =
        ("ABCDEF123456" : String).data.drop
          (("ABCDEF123456" : String).length - 6) ∧
      masked_key "ABCDEF123456" = "******123456") :=
  ⟨rfl, by decide,
    c8_masked_key_stats
      [{ user_id := 7, api_key := "ABCDEF123456", upload_count := 4,
         created_at := 0 }] 7 "ABCDEF123456" rfl (by decide)⟩

/-- C9 counterexample: re-registering user 1 at time 20 rewrites the row
(SQLite `INSERT OR REPLACE` deletes the conflicting row and inserts a fresh
one, whose omitted `created_at` column takes the default `CURRENT_TIMESTAMP`),
so `created_at` changes from 10 to 20 — the claim that every subsequent
operation, including re-registration, leaves it unchanged is false. -/
theorem c9_created_at_counterexample :
    (dbLookup c9db 1).map UserRow.created_at = some 10 ∧
    (dbLookup (save_user_api_key c9db 1 "newkey" 20).1 1).map
        UserRow.created_at = some 20 ∧
    get_user_api_key (save_user_api_key c9db 1 "newkey" 20).1 1 =
      some "newkey" ∧
    get_upload_stats (save_user_api_key c9db 1 "newkey" 20).1 1 = 3 := by
  decide

/-- C9 amended: `created_at` is set at insert and left unchanged by counter
increments — `UPDATE` touches only `upload_count`, so this holds for every
increment target `uid2`, in particular the same user's own uploads — and by
upserts for other users (`uid3 ≠ uid`); but a re-registration of the same
user via `save_user_api_key` replaces the row and sets `created_at` to the
current time. -/
theorem c9_created_at_amended (db : Db) (uid uid2 uid3 : Nat) (k k2 : String)
    (now now2 : Nat) (hne : uid3 ≠ uid) :
    (dbLookup (increment_upload_count db uid2) uid).map UserRow.created_at =
      (dbLookup db uid).map UserRow.created_at ∧
    (dbLookup (save_user_api_key db uid k now).1 uid).map UserRow.created_at =
      some now ∧
    (dbLookup (save_user_api_key db uid3 k2 now2).1 uid).map
        UserRow.created_at = (dbLookup db uid).map UserRow.created_at := by
  refine ⟨?_, ?_, ?_⟩
  · rw [dbLookup_increment]
    rcases dbLookup db uid with _ | r
    · rfl
    · simp only [Option.map_some']
      split <;> rfl
  · rw [dbLookup_save_self]
    rfl
  · unfold save_user_api_key
    rw [dbLookup_append, dbLookup_dbDeleteRow_other db uid uid3 hne]
    rcases dbLookup db uid with _ | r
    · simp [dbLookup, hne]
    · rfl

/-- Witness for the amended C9 at a concrete store; the increment
instance targets the same user (uid2 = uid = 1), exercising the same-user
preservation clause. -/
theorem c9_created_at_amended_witness :
    (2 : Nat) ≠ 1 ∧
    ((dbLookup (increment_upload_count c9db 1) 1).map UserRow.created_at =
      (dbLookup c9db 1).map UserRow.created_at ∧
    (dbLookup (save_user_api_key c9db 1 "k" 99).1 1).map UserRow.created_at =
      some 99 ∧
    (dbLookup (save_user_api_key c9db 2 "k2" 99).1 1).map UserRow.created_at =
      (dbLookup c9db 1).map UserRow.created_at) :=
  ⟨by decide, c9_created_at_amended c9db 1 1 2 "k" "k2" 99 99 (by decide)⟩

/-- C10: an absent `file_size` is treated as 0 MB (`if video.file_size`
falsy), so the size check passes (it cannot raise: the embedding is a total
function of the optional size) and the authorized run proceeds to create the
temp file, fetch the file handle, download, acquire the endpoint, and submit
the upload. -/
theorem c10_missing_size_proceeds (db : Db) (uid : Nat) (key srv : String)
    (serverAtt : Nat → ServerAttempt) (uploadAtt : Nat → UploadAttempt)
    (hk : get_user_api_key db uid = some key) (hkey : key ≠ "")
    (hsrv : get_upload_server serverAtt = some srv) :
    sizeExceedsLimit none = false ∧
    (handle_video db uid none true true serverAtt uploadAtt).tempCreated =
      true ∧
    (handle_video db uid none true true serverAtt uploadAtt).calledGetFile =
      true ∧
    (handle_video db uid none true true serverAtt uploadAtt).calledDownload =
      true ∧
    (handle_video db uid none true true serverAtt uploadAtt).calledGetServer =
      true ∧
    (handle_video db uid none true true serverAtt uploadAtt).calledUpload =
      true := by
  have hsize : sizeExceedsLimit none = false := by decide
  refine ⟨hsize, ?_⟩
  rcases hup : upload_to_rpmshare uploadAtt with _ | resp
  · simp [handle_video, hk, hkey, hsize, hsrv, hup]
  · by_cases hf : resp.isEmptyDict = true
    · simp [handle_video, hk, hkey, hsize, hsrv, hup, hf]
    · simp only [Bool.not_eq_true] at hf
      rcases hfc : getFilecode resp with e | ofc
      · simp [handle_video, hk, hkey, hsize, hsrv, hup, hf, hfc]
      · rcases ofc with _ | s
        · simp [handle_video, hk, hkey, hsize, hsrv, hup, hf, hfc]
        · by_cases hs : s = "" <;>
            simp [handle_video, hk, hkey, hsize, hsrv, hup, hf, hfc, hs]

/-- Witness for C10: authorized user, no reported size, everything else
working. -/
theorem c10_missing_size_proceeds_witness :
    get_user_api_key wdb 1 = some "APIKEY" ∧ "APIKEY" ≠ "" ∧
    get_upload_server srvOk = some "https-upload-endpoint" ∧
    (sizeExceedsLimit none = false ∧
    (handle_video wdb 1 none true true srvOk upWithHandle).tempCreated =
      true ∧
    (handle_video wdb 1 none true true srvOk upWithHandle).calledGetFile =
      true ∧
    (handle_video wdb 1 none true true srvOk upWithHandle).calledDownload =
      true ∧
    (handle_video wdb 1 none true true srvOk upWithHandle).calledGetServer =
      true ∧
    (handle_video wdb 1 none true true srvOk upWithHandle).calledUpload =
      true) :=
  ⟨rfl, by decide, rfl,
    c10_missing_size_proceeds wdb 1 "APIKEY" "https-upload-endpoint" srvOk
      upWithHandle rfl (by decide) rfl⟩

end VIPRpmShareBot
